import Mathlib

/-!
Verification development for the esxi-analyzer repository.

The definitions below are a shallow embedding of the Python sources:
  * `src/lib/analyzer.py`  (class `IssueAnalyzer`, dataclass `Issue`)
  * `src/lib/collector.py` (class `LogCollector`)
  * `src/lib/report.py`    (class `ReportGenerator._generate_html`)

Modelling conventions:
  * Python floats are modelled as exact rationals (`ℚ`); all numeric values
    occurring here come from short decimal literals in the analysed text, so
    the comparisons against the configured thresholds coincide with the
    float comparisons performed by the code.
  * The regular-expression searches of `analyzer.py` use patterns built from
    literals, `\s+`, `\d+`, `\w+`, `\S+` and lazy `.*?` only.  For such
    patterns (every repeated class is followed by a disjoint continuation)
    Python's leftmost/greedy matching coincides with the deterministic
    maximal-munch matcher `matchPats` defined below, searched leftmost.
  * Effectful operations (SSH attempts, remote command execution, SFTP
    fetches, directory creation) are modelled by explicit outcome oracles,
    while the control flow around them (retry loops, try/except blocks,
    staging and cleanup) is translated from the source.
-/

namespace EsxiSpec

/-! ## Character classes and low-level string helpers -/

/-- ASCII decimal digit, modelling the `\d` class of the `re` patterns. -/
def isDigitCh (c : Char) : Bool := c.isDigit

/-- Whitespace, modelling the `\s` class: space, tab, newline, carriage
return, form feed and vertical tab. -/
def isWsCh (c : Char) : Bool :=
  (c == ' ') || (c == '\t') || (c == '\n') || (c == '\r') ||
  (c == Char.ofNat 11) || (c == Char.ofNat 12)

/-- Word character, modelling the `\w` class: letters, digits, underscore. -/
def isWordCh (c : Char) : Bool := c.isAlphanum || (c == '_')

/-- Non-whitespace, modelling the `\S` class. -/
def isNonWsCh (c : Char) : Bool := !(isWsCh c)

/-- Take the maximal leading run of characters satisfying `p`
(the maximal-munch step for `\s+`, `\d+`, `\w+`, `\S+`). -/
def takeClass (p : Char → Bool) : List Char → List Char × List Char
  | [] => ([], [])
  | c :: cs =>
      if p c then
        let r := takeClass p cs
        (c :: r.1, r.2)
      else ([], c :: cs)

/-- Char comparison, optionally case-insensitive (ASCII lowering),
modelling `re.IGNORECASE`. -/
def chEq (ci : Bool) (a b : Char) : Bool :=
  if ci then a.toLower == b.toLower else a == b

/-- Lowercase a character list (models Python `str.lower()` on ASCII text). -/
def lowerCL (cs : List Char) : List Char := cs.map Char.toLower

/-- `isPrefCL pat cs` : is `pat` a prefix of `cs` (exact characters)? -/
def isPrefCL : List Char → List Char → Bool
  | [], _ => true
  | _ :: _, [] => false
  | a :: xs, b :: ys => (a == b) && isPrefCL xs ys

/-- `containsSubCL pat hay` : does `hay` contain `pat` as a contiguous
substring?  Models Python's `pat in hay`. -/
def containsSubCL (pat : List Char) : List Char → Bool
  | [] => isPrefCL pat []
  | c :: rest => isPrefCL pat (c :: rest) || containsSubCL pat rest

/-- `strContainsSub s pat` : `pat in s` on strings. -/
def strContainsSub (s pat : String) : Bool := containsSubCL pat.data s.data

/-- Numeric value of a digit run (models Python `int()` on the captured
digits; leading zeros are absorbed exactly as `int` does). -/
def digitsToNat (ds : List Char) : ℕ :=
  ds.foldl (fun n c => n * 10 + (c.toNat - '0'.toNat)) 0

/-- Value of a captured `\d+\.\d+` token under `float()`, as an exact
rational: `intPart + fracPart / 10 ^ (number of fractional digits)`. -/
def decValQ (intPart fracPart : List Char) : ℚ :=
  (digitsToNat intPart : ℚ) + (digitsToNat fracPart : ℚ) / ((10 : ℚ) ^ fracPart.length)

/-- Python-style `str.strip()` on a character list (both ends). -/
def trimCL (cs : List Char) : List Char :=
  ((cs.dropWhile isWsCh).reverse.dropWhile isWsCh).reverse

/-- `line.strip()` on strings. -/
def stripStr (s : String) : String := String.mk (trimCL s.data)

/-- Split on a single separator character (Python `str.split(sep)`):
`splitOnCh sep cs` always returns at least one (possibly empty) piece. -/
def splitOnCh (sep : Char) : List Char → List (List Char)
  | [] => [[]]
  | c :: cs =>
      let r := splitOnCh sep cs
      if c == sep then [] :: r
      else
        match r with
        | h :: t => (c :: h) :: t
        | [] => [[c]]

/-- `s.split('\n')` as a list of strings. -/
def splitLines (s : String) : List String := (splitOnCh '\n' s.data).map String.mk

/-- `s.split(sep, 1)`: the parts before and after the first occurrence of
`sep`, if `sep` occurs at all. -/
def splitFirstCh (sep : Char) : List Char → Option (List Char × List Char)
  | [] => none
  | c :: cs =>
      if c == sep then some ([], cs)
      else (splitFirstCh sep cs).map (fun r => (c :: r.1, r.2))

/-! ## The pattern matcher

`Pat` is the small pattern language covering every regular expression used
by `analyzer.py`.  `lit`, `ws`, `dig`, `word`, `nonws` and `anyLazy` stand
for a literal, `\s+`, `(\d+)`, `(\w+)`, `(\S+)` and the lazy `.*?`
(which does not cross newlines, like `.` in `re`).  Every `dig`, `word`
and `nonws` element produces a capture, in pattern order. -/

inductive Pat where
  | lit : List Char → Pat
  | ws : Pat
  | dig : Pat
  | word : Pat
  | nonws : Pat
  | anyLazy : Pat
deriving Repr, DecidableEq

/-- Match a literal at the head of the input; return the rest on success. -/
def litAt (ci : Bool) : List Char → List Char → Option (List Char)
  | [], cs => some cs
  | _ :: _, [] => none
  | p :: ps, c :: cs => if chEq ci p c then litAt ci ps cs else none

/-- Greedy maximal-munch matcher.  `matchPatsF ci fuel ps cs` matches the
pattern list `ps` at the very start of `cs`; on success it returns the
captures (in pattern order) and the unconsumed rest of the input.  For the
pattern shapes used by the source (each repeated class is followed by a
continuation that cannot consume characters of that class) this coincides
with `re` matching anchored at the current position.

Recursion is structured over `fuel` so that the kernel can evaluate the
matcher; every recursive call strictly decreases `cs.length + ps.length`,
so the `fuel = 0` branch is unreachable from the wrapper `matchPats`,
which supplies `cs.length + ps.length + 1`. -/
def matchPatsF (ci : Bool) : ℕ → List Pat → List Char → Option (List (List Char) × List Char)
  | 0, _, _ => none
  | _ + 1, [], cs => some ([], cs)
  | fuel + 1, .lit l :: ps, cs =>
      match litAt ci l cs with
      | some rest => matchPatsF ci fuel ps rest
      | none => none
  | fuel + 1, .ws :: ps, cs =>
      let r := takeClass isWsCh cs
      if r.1.isEmpty then none else matchPatsF ci fuel ps r.2
  | fuel + 1, .dig :: ps, cs =>
      let r := takeClass isDigitCh cs
      if r.1.isEmpty then none
      else (matchPatsF ci fuel ps r.2).map (fun q => (r.1 :: q.1, q.2))
  | fuel + 1, .word :: ps, cs =>
      let r := takeClass isWordCh cs
      if r.1.isEmpty then none
      else (matchPatsF ci fuel ps r.2).map (fun q => (r.1 :: q.1, q.2))
  | fuel + 1, .nonws :: ps, cs =>
      let r := takeClass isNonWsCh cs
      if r.1.isEmpty then none
      else (matchPatsF ci fuel ps r.2).map (fun q => (r.1 :: q.1, q.2))
  | fuel + 1, .anyLazy :: ps, cs =>
      match matchPatsF ci fuel ps cs with
      | some q => some q
      | none =>
          match cs with
          | [] => none
          | c :: cs' =>
              if c == '\n' then none else matchPatsF ci fuel (.anyLazy :: ps) cs'

/-- Anchored match with sufficient fuel. -/
def matchPats (ci : Bool) (ps : List Pat) (cs : List Char) :
    Option (List (List Char) × List Char) :=
  matchPatsF ci (cs.length + ps.length + 1) ps cs

/-- Leftmost search (models `re.search`): try the match at every start
position from left to right, returning the absolute start index, end index
and captures of the first success. -/
def searchFrom (ci : Bool) (ps : List Pat) : List Char → ℕ → Option (ℕ × ℕ × List (List Char))
  | cs, idx =>
      match matchPats ci ps cs with
      | some (caps, rest) => some (idx, idx + (cs.length - rest.length), caps)
      | none =>
          match cs with
          | [] => none
          | _ :: cs' => searchFrom ci ps cs' (idx + 1)

/-- Captures of the leftmost match of `ps` in `s`, if any (`re.search`). -/
def searchOne (ci : Bool) (ps : List Pat) (s : String) : Option (List (List Char)) :=
  (searchFrom ci ps s.data 0).map (fun r => r.2.2)

/-- All non-overlapping matches, leftmost first (models `re.findall` /
`re.finditer`): after a successful match the scan resumes at its end (or one
character further for an empty match).  Returns `(start, end, captures)`.
Fuel-structured like `matchPatsF`; every recursive call strictly shortens
the input, so `fuel = cs.length + 1` (supplied by `findAll`) suffices. -/
def findAllFromF (ci : Bool) (ps : List Pat) : ℕ → List Char → ℕ → List (ℕ × ℕ × List (List Char))
  | 0, _, _ => []
  | _ + 1, [], idx =>
      match matchPats ci ps [] with
      | some (caps, _) => [(idx, idx, caps)]
      | none => []
  | fuel + 1, c :: cs, idx =>
      match matchPats ci ps (c :: cs) with
      | some (caps, rest) =>
          let len := (c :: cs).length - rest.length
          if len = 0 then (idx, idx, caps) :: findAllFromF ci ps fuel cs (idx + 1)
          else (idx, idx + len, caps) :: findAllFromF ci ps fuel (cs.drop (len - 1)) (idx + len)
      | none => findAllFromF ci ps fuel cs (idx + 1)

/-- All matches of `ps` in `s`. -/
def findAll (ci : Bool) (ps : List Pat) (s : String) : List (ℕ × ℕ × List (List Char)) :=
  findAllFromF ci ps (s.data.length + 1) s.data 0

/-! ## Data model: findings

Embeds the `Issue` dataclass of `src/lib/analyzer.py` (title, description,
category, severity, evidence, solution, doc_links). -/

structure Issue where
  title : String
  description : String
  category : String
  severity : String
  evidence : List String
  solution : String
  doc_links : List String
deriving Repr, DecidableEq

/-- `Issue.SEVERITY_LOW` -/
def SEVERITY_LOW : String := "low"
/-- `Issue.SEVERITY_MEDIUM` -/
def SEVERITY_MEDIUM : String := "medium"
/-- `Issue.SEVERITY_HIGH` -/
def SEVERITY_HIGH : String := "high"
/-- `Issue.SEVERITY_CRITICAL` -/
def SEVERITY_CRITICAL : String := "critical"
/-- `Issue.CATEGORY_STORAGE` -/
def CATEGORY_STORAGE : String := "storage"
/-- `Issue.CATEGORY_NETWORK` -/
def CATEGORY_NETWORK : String := "network"
/-- `Issue.CATEGORY_CPU` -/
def CATEGORY_CPU : String := "cpu"
/-- `Issue.CATEGORY_MEMORY` -/
def CATEGORY_MEMORY : String := "memory"
/-- `Issue.CATEGORY_VM` -/
def CATEGORY_VM : String := "vm"
/-- `Issue.CATEGORY_SECURITY` -/
def CATEGORY_SECURITY : String := "security"
/-- `Issue.CATEGORY_HARDWARE` -/
def CATEGORY_HARDWARE : String := "hardware"

/-- Does any textual field of the finding (title, description, evidence,
solution) contain `s` as a substring? -/
def issueMentions (i : Issue) (s : String) : Bool :=
  strContainsSub i.title s || strContainsSub i.description s ||
  i.evidence.any (fun e => strContainsSub e s) || strContainsSub i.solution s

/-! ## Configuration

`config.py` resolves each threshold from `config.yaml` (or its built-in
defaults); the analyzer additionally applies `... or <literal>` fallbacks.
`Thresholds` carries the resolved values; `defaultThresholds` holds the
default configuration (matching both `Config._load_defaults` and the
analyzer's literal fallbacks, which agree). -/

structure Thresholds where
  max_uptime_days : ℕ
  high_cpu_percent : ℚ
  high_memory_percent : ℚ
  high_latency_ms : ℚ
  low_datastore_space_percent : ℕ
deriving Repr, DecidableEq

def defaultThresholds : Thresholds := ⟨180, 80, 90, 20, 10⟩

/-! ## Percentage formatting

Models Python's fixed-point formatting `f"{x:.1f}"` for the nonnegative
percentages produced by the memory check: round to one decimal place with
ties going to the even digit, then print `<int>.<frac>`. -/

def roundHalfEvenQ (q : ℚ) : ℤ :=
  let f : ℤ := ⌊q⌋
  let r : ℚ := q - (f : ℚ)
  if r < 1 / 2 then f
  else if 1 / 2 < r then f + 1
  else if f % 2 = 0 then f else f + 1

def fmt1Aux (n : ℤ) : String :=
  toString (n / 10) ++ "." ++ toString (n % 10)

def fmt1 (q : ℚ) : String :=
  let n : ℤ := roundHalfEvenQ (q * 10)
  if n < 0 then "-" ++ fmt1Aux (-n) else fmt1Aux n

/-! ## Detector: system information (`IssueAnalyzer._analyze_system_info`) -/

/-- `r'VMware ESXi (\d+\.\d+)'` -/
def versionPat : List Pat := [.lit "VMware ESXi ".data, .dig, .lit ".".data, .dig]

/-- The two digit groups of the leftmost version token, if any. -/
def versionTokOf (version_data : String) : Option (List Char × List Char) :=
  match searchOne false versionPat version_data with
  | some [a, b] => some (a, b)
  | _ => none

/-- `float(version)` for the captured `<major>.<minor>` token. -/
def verValQ (a b : List Char) : ℚ := decValQ a b

/-- The version part of `_analyze_system_info`. -/
def versionIssues (version_data : String) : List Issue :=
  match versionTokOf version_data with
  | some (a, b) =>
      let version : String := String.mk (a ++ '.' :: b)
      let version_num : ℚ := verValQ a b
      if version_num < 6.5 then
        [{ title := "EOL ESXi Version",
           description := "ESXi version " ++ version ++
             " has reached end of life and is no longer receiving security updates",
           category := CATEGORY_SECURITY,
           severity := SEVERITY_HIGH,
           evidence := ["Detected ESXi version: " ++ version],
           solution := "Upgrade to a supported ESXi version (7.0 or newer recommended)",
           doc_links := ["https://kb.vmware.com/s/article/2145103"] }]
      else if version_num < 7.0 then
        [{ title := "Outdated ESXi Version",
           description := "ESXi version " ++ version ++
             " is outdated and will soon reach end of life",
           category := CATEGORY_SECURITY,
           severity := SEVERITY_MEDIUM,
           evidence := ["Detected ESXi version: " ++ version],
           solution := "Consider upgrading to ESXi 7.0 or newer for the latest features and security updates",
           doc_links := ["https://kb.vmware.com/s/article/2145103"] }]
      else []
  | none => []

/-- `r'up\s+(\d+)\s+days'` -/
def uptimePat : List Pat := [.lit "up".data, .ws, .dig, .ws, .lit "days".data]

/-- The parsed uptime days, if the uptime artifact matches. -/
def uptimeDaysOf (uptime_data : String) : Option ℕ :=
  match searchOne false uptimePat uptime_data with
  | some [d] => some (digitsToNat d)
  | _ => none

/-- The uptime part of `_analyze_system_info` (threshold
`max_uptime_days`, default 180; strict `days > max_uptime_days`). -/
def uptimeIssues (max_uptime_days : ℕ) (uptime_data : String) : List Issue :=
  match uptimeDaysOf uptime_data with
  | some days =>
      if max_uptime_days < days then
        [{ title := "Excessive Uptime",
           description := "The ESXi host has been running for " ++ toString days ++
             " days without a reboot",
           category := CATEGORY_SECURITY,
           severity := SEVERITY_MEDIUM,
           evidence := ["System uptime: " ++ toString days ++ " days"],
           solution := "Schedule a maintenance window to apply pending updates and reboot the host",
           doc_links := ["https://kb.vmware.com/s/article/2032823"] }]
      else []
  | none => []

/-- `_analyze_system_info`: version check, then uptime check. -/
def analyzeSystemInfo (max_uptime_days : ℕ) (version_data uptime_data : String) : List Issue :=
  versionIssues version_data ++ uptimeIssues max_uptime_days uptime_data

/-! ## Detector: performance (`IssueAnalyzer._analyze_performance`) -/

/-- `r'(\w+)\s+\d+\s+\d+\s+(\d+\.\d+)'` (captures: word, and the four
digit runs making up the two plain `\d+` and the float `\d+\.\d+`). -/
def cpuPat : List Pat := [.word, .ws, .dig, .ws, .dig, .ws, .dig, .lit ".".data, .dig]

/-- One `f"{proc}: {usage}% CPU"` evidence line per process above the
threshold (the usage string is reproduced verbatim from the text). -/
def highCpuProcesses (high_cpu_percent : ℚ) (cpu_stats : String) : List String :=
  (findAll false cpuPat cpu_stats).filterMap fun m =>
    match m.2.2 with
    | [proc, _, _, uI, uF] =>
        if high_cpu_percent < decValQ uI uF then
          some (String.mk proc ++ ": " ++ String.mk (uI ++ '.' :: uF) ++ "% CPU")
        else none
    | _ => none

/-- The CPU part of `_analyze_performance` (guarded by `'%PCPU' in cpu_stats`;
`config.get_kb_article('high_cpu')` resolves to the default KB link). -/
def cpuIssues (high_cpu_percent : ℚ) (cpu_stats : String) : List Issue :=
  if strContainsSub cpu_stats "%PCPU" then
    let procs := highCpuProcesses high_cpu_percent cpu_stats
    if procs.isEmpty then []
    else
      [{ title := "High CPU Utilization",
         description := "Some processes are consuming excessive CPU resources (>" ++
           toString high_cpu_percent ++ "%)",
         category := CATEGORY_CPU,
         severity := SEVERITY_MEDIUM,
         evidence := procs,
         solution := "Investigate high CPU consuming processes and consider optimizing workloads or adding resources",
         doc_links := ["https://kb.vmware.com/s/article/2001003"] }]
  else []

/-- `r'Free\s+Memory:\s+(\d+)\s+MB'` -/
def memFreePat : List Pat :=
  [.lit "Free".data, .ws, .lit "Memory:".data, .ws, .dig, .ws, .lit "MB".data]

/-- `r'Total\s+Memory:\s+(\d+)\s+MB'` -/
def memTotalPat : List Pat :=
  [.lit "Total".data, .ws, .lit "Memory:".data, .ws, .dig, .ws, .lit "MB".data]

/-- Parsed free memory (MB) from the memory-info artifact, if present. -/
def memFreeOf (memory_info : String) : Option ℕ :=
  match searchOne false memFreePat memory_info with
  | some [d] => some (digitsToNat d)
  | _ => none

/-- Parsed total memory (MB) from the memory-info artifact, if present. -/
def memTotalOf (memory_info : String) : Option ℕ :=
  match searchOne false memTotalPat memory_info with
  | some [d] => some (digitsToNat d)
  | _ => none

/-- The memory part of `_analyze_performance`: both values must parse, the
total must be positive, and `used_percent = 100 - free/total*100` must
exceed the threshold.  Note that the emitted texts render the *free*
percentage `free_percent` (as `...% free` / `...%`), not `used_percent`. -/
def memoryIssues (high_memory_percent : ℚ) (memory_info : String) : List Issue :=
  match memFreeOf memory_info, memTotalOf memory_info with
  | some free_mem, some total_mem =>
      if 0 < total_mem then
        let free_percent : ℚ := ((free_mem : ℚ) / (total_mem : ℚ)) * 100
        let used_percent : ℚ := 100 - free_percent
        if high_memory_percent < used_percent then
          [{ title := "Low Available Memory",
             description := "The ESXi host is running low on available memory (" ++
               fmt1 free_percent ++ "% free)",
             category := CATEGORY_MEMORY,
             severity := SEVERITY_HIGH,
             evidence := ["Free memory: " ++ toString free_mem ++ " MB out of " ++
               toString total_mem ++ " MB (" ++ fmt1 free_percent ++ "%)"],
             solution := "Consider adding more memory or reducing VM memory allocations",
             doc_links := ["https://kb.vmware.com/s/article/1003501"] }]
        else []
      else []
  | _, _ => []

/-- `_analyze_performance`: CPU check, then memory check. -/
def analyzePerformance (high_cpu_percent high_memory_percent : ℚ)
    (cpu_stats memory_info : String) : List Issue :=
  cpuIssues high_cpu_percent cpu_stats ++ memoryIssues high_memory_percent memory_info

/-! ## Detector: hardware (`IssueAnalyzer._analyze_hardware`) -/

/-- `r'HealthState:\s+(\w+)'` -/
def healthStatePat : List Pat := [.lit "HealthState:".data, .ws, .word]

def healthIssues (hw_status : String) : List Issue :=
  if strContainsSub hw_status "HealthState:" then
    match searchOne false healthStatePat hw_status with
    | some [w] =>
        if lowerCL w ≠ "green".data then
          [{ title := "Hardware Health Warning",
             description := "The hardware health status is not optimal: " ++ String.mk w,
             category := CATEGORY_HARDWARE,
             severity := SEVERITY_HIGH,
             evidence := ["Hardware health state: " ++ String.mk w],
             solution := "Check hardware sensors and logs for specific hardware failures",
             doc_links := ["https://kb.vmware.com/s/article/2004161"] }]
        else []
    | _ => []
  else []

def sensorKeywords : List String := ["red", "yellow", "warning", "critical"]

/-- Lines of the sensors artifact whose lowercase form contains one of the
warning keywords, stripped (detection order preserved). -/
def sensorIssueLines (sensors : String) : List String :=
  (splitLines sensors).filterMap fun line =>
    if sensorKeywords.any (fun k => containsSubCL k.data (lowerCL line.data)) then
      some (stripStr line)
    else none

def sensorIssues (sensors : String) : List Issue :=
  let ls := sensorIssueLines sensors
  if ls.isEmpty then []
  else
    [{ title := "Sensor Warning",
       description := "One or more hardware sensors are reporting warnings or critical values",
       category := CATEGORY_HARDWARE,
       severity := SEVERITY_HIGH,
       evidence := ls,
       solution := "Investigate the hardware component mentioned in the sensor warning",
       doc_links := ["https://kb.vmware.com/s/article/2033588"] }]

/-- `_analyze_hardware`: health-state check, then sensor check. -/
def analyzeHardware (hw_status sensors : String) : List Issue :=
  healthIssues hw_status ++ sensorIssues sensors

/-! ## Detector: storage (`IssueAnalyzer._analyze_storage`) -/

def storageKeywords : List String := ["Error", "Degraded", "Offline"]

def storageDeviceLines (storage_devices : String) : List String :=
  (splitLines storage_devices).filterMap fun line =>
    if storageKeywords.any (fun k => strContainsSub line k) then some (stripStr line)
    else none

def storageDeviceIssues (storage_devices : String) : List Issue :=
  let ls := storageDeviceLines storage_devices
  if ls.isEmpty then []
  else
    [{ title := "Storage Device Issues",
       description := "One or more storage devices are reporting errors or degraded state",
       category := CATEGORY_STORAGE,
       severity := SEVERITY_HIGH,
       evidence := ls,
       solution := "Check the storage hardware and consider replacing faulty devices",
       doc_links := ["https://kb.vmware.com/s/article/1021244"] }]

/-- `r'(\S+)\s+\S+\s+\S+\s+(\d+\.\d+)\s+ms'` -/
def latencyPat : List Pat :=
  [.nonws, .ws, .nonws, .ws, .nonws, .ws, .dig, .lit ".".data, .dig, .ws, .lit "ms".data]

def latencyIssueLines (high_latency_ms : ℚ) (disk_latency : String) : List String :=
  (splitLines disk_latency).filterMap fun line =>
    match searchOne false latencyPat line with
    | some [dev, _, _, lI, lF] =>
        if high_latency_ms < decValQ lI lF then
          some ("Device " ++ String.mk dev ++ ": " ++ String.mk (lI ++ '.' :: lF) ++ "ms latency")
        else none
    | _ => none

def latencyIssues (high_latency_ms : ℚ) (disk_latency : String) : List Issue :=
  let ls := latencyIssueLines high_latency_ms disk_latency
  if ls.isEmpty then []
  else
    [{ title := "High Storage Latency",
       description := "Some storage devices are experiencing high latency (>" ++
         toString high_latency_ms ++ "ms)",
       category := CATEGORY_STORAGE,
       severity := SEVERITY_MEDIUM,
       evidence := ls,
       solution := "Investigate storage bottlenecks and consider storage optimization or upgrades",
       doc_links := ["https://kb.vmware.com/s/article/1021244"] }]

/-- `r'(\S+)\s+\S+\s+(\d+)\s+(\d+)\s+(\d+)%'` -/
def datastorePat : List Pat :=
  [.nonws, .ws, .nonws, .ws, .dig, .ws, .dig, .ws, .dig, .lit "%".data]

def spaceIssueLines (low_space_percent : ℕ) (datastore_info : String) : List String :=
  (splitLines datastore_info).filterMap fun line =>
    match searchOne false datastorePat line with
    | some [name, _, _, _, pct] =>
        if digitsToNat pct < low_space_percent then
          some ("Datastore " ++ String.mk name ++ ": " ++ String.mk pct ++ "% free space")
        else none
    | _ => none

def spaceIssues (low_space_percent : ℕ) (datastore_info : String) : List Issue :=
  let ls := spaceIssueLines low_space_percent datastore_info
  if ls.isEmpty then []
  else
    [{ title := "Low Datastore Space",
       description := "Some datastores are running low on free space (<" ++
         toString low_space_percent ++ "%)",
       category := CATEGORY_STORAGE,
       severity := SEVERITY_HIGH,
       evidence := ls,
       solution := "Free up space by removing unnecessary files or snapshots, or add more storage capacity",
       doc_links := ["https://kb.vmware.com/s/article/1003412"] }]

/-- `_analyze_storage`: device errors, then latency, then datastore space. -/
def analyzeStorage (high_latency_ms : ℚ) (low_space_percent : ℕ)
    (storage_devices disk_latency datastore_info : String) : List Issue :=
  storageDeviceIssues storage_devices ++ latencyIssues high_latency_ms disk_latency ++
    spaceIssues low_space_percent datastore_info

/-! ## Detector: network (`IssueAnalyzer._analyze_network`) -/

def interfaceIssueLines (interfaces : String) : List String :=
  (splitLines interfaces).filterMap fun line =>
    if strContainsSub line "Down" then some (stripStr line) else none

def interfaceIssues (interfaces : String) : List Issue :=
  let ls := interfaceIssueLines interfaces
  if ls.isEmpty then []
  else
    [{ title := "Network Interface Down",
       description := "One or more network interfaces are down",
       category := CATEGORY_NETWORK,
       severity := SEVERITY_HIGH,
       evidence := ls,
       solution := "Check network cables, switch ports, and network configuration",
       doc_links := ["https://kb.vmware.com/s/article/2008144"] }]

/-- `r'vSwitch Name:\s+(\S+)'` -/
def vswitchNamePat : List Pat := [.lit "vSwitch Name:".data, .ws, .nonws]

/-- `line.split(':', 1)[1].strip()` followed by counting the comma-separated
entries whose stripped form is non-empty. -/
def uplinksCountOf (line : String) : ℕ :=
  match splitFirstCh ':' line.data with
  | none => 0
  | some (_, afterColon) =>
      let uplinks := trimCL afterColon
      ((splitOnCh ',' uplinks).filter (fun u => trimCL u ≠ [])).length

def vswitchMsg (v : String) (cnt : ℕ) : String :=
  "vSwitch " ++ v ++ ": Only " ++ toString cnt ++ " uplink(s)"

/-- The per-line vSwitch scan of `_analyze_network`: on a `vSwitch Name:`
header, flush the previous switch if it had fewer than 2 uplinks and reset
the count; on an `Uplinks:` field, recompute the count; after the last line
flush the final switch. -/
def vswitchScan : List String → Option String → ℕ → List String
  | [], cur, cnt =>
      match cur with
      | some v => if cnt < 2 then [vswitchMsg v cnt] else []
      | none => []
  | line :: rest, cur, cnt =>
      match searchOne false vswitchNamePat line with
      | some [n] =>
          let pre :=
            match cur with
            | some v => if cnt < 2 then [vswitchMsg v cnt] else []
            | none => []
          let cnt2 := if strContainsSub line "Uplinks:" then uplinksCountOf line else 0
          pre ++ vswitchScan rest (some (String.mk n)) cnt2
      | _ =>
          let cnt2 := if strContainsSub line "Uplinks:" then uplinksCountOf line else cnt
          vswitchScan rest cur cnt2

def vswitchIssueLines (vswitches : String) : List String :=
  vswitchScan (splitLines vswitches) none 0

def vswitchIssues (vswitches : String) : List Issue :=
  let ls := vswitchIssueLines vswitches
  if ls.isEmpty then []
  else
    [{ title := "Inadequate Network Redundancy",
       description := "Some vSwitches have insufficient uplink redundancy",
       category := CATEGORY_NETWORK,
       severity := SEVERITY_MEDIUM,
       evidence := ls,
       solution := "Configure additional uplinks for affected vSwitches to provide redundancy",
       doc_links := ["https://kb.vmware.com/s/article/1003806"] }]

/-- `_analyze_network`: interface check, then vSwitch-redundancy check
(the vmkernel artifact is read but not used by the source). -/
def analyzeNetwork (interfaces vswitches vmkernel : String) : List Issue :=
  interfaceIssues interfaces ++ vswitchIssues vswitches

/-! ## Detector: VM states (`IssueAnalyzer._analyze_vms`) -/

def vmStateKeywords : List String := ["Invalid", "Stuck", "Suspended"]

def vmStateIssueLines (vm_list : String) : List String :=
  (splitLines vm_list).filterMap fun line =>
    if vmStateKeywords.any (fun k => strContainsSub line k) then some (stripStr line)
    else none

def vmStateIssues (vm_list : String) : List Issue :=
  let ls := vmStateIssueLines vm_list
  if ls.isEmpty then []
  else
    [{ title := "VMs in Problematic State",
       description := "Some virtual machines are in an invalid or problematic state",
       category := CATEGORY_VM,
       severity := SEVERITY_MEDIUM,
       evidence := ls,
       solution := "Power cycle the affected VMs or migrate them to another host",
       doc_links := ["https://kb.vmware.com/s/article/1004340"] }]

/-- `r'(\S+)\s+\S+\s+\S+\s+(\d+)\s+snapshot'` -/
def snapshotPat : List Pat :=
  [.nonws, .ws, .nonws, .ws, .nonws, .ws, .dig, .ws, .lit "snapshot".data]

def snapshotIssueLines (vm_list : String) : List String :=
  (splitLines vm_list).filterMap fun line =>
    match searchOne false snapshotPat line with
    | some [vm, _, _, cnt] =>
        if 3 < digitsToNat cnt then
          some ("VM " ++ String.mk vm ++ ": " ++ String.mk cnt ++ " snapshots")
        else none
    | _ => none

def snapshotIssues (vm_list : String) : List Issue :=
  let ls := snapshotIssueLines vm_list
  if ls.isEmpty then []
  else
    [{ title := "Excessive VM Snapshots",
       description := "Some VMs have an excessive number of snapshots which can impact performance and storage",
       category := CATEGORY_VM,
       severity := SEVERITY_MEDIUM,
       evidence := ls,
       solution := "Consolidate or remove unnecessary snapshots",
       doc_links := ["https://kb.vmware.com/s/article/1025279"] }]

/-- `_analyze_vms`: VM-state check, then snapshot check (the vm_stats
artifact is read but not used by the source). -/
def analyzeVMs (vm_list vm_stats : String) : List Issue :=
  vmStateIssues vm_list ++ snapshotIssues vm_list

/-! ## Detector: log pattern scan (`IssueAnalyzer._analyze_logs`)

Each staged log file is scanned by six case-insensitive patterns in the
declaration order of the `error_patterns` dict (Python dicts preserve
insertion order).  For a pattern with matches, the evidence holds the match
count plus up to three snippets with 50 characters of context on each side,
newlines flattened to spaces. -/

structure LogPatternEntry where
  pats : List Pat
  patStr : String
  title : String
  description : String
  category : String
  severity : String
  solution : String
  doc_links : List String
deriving Repr

def errorPatternTable : List LogPatternEntry :=
  [ { pats := [.lit "SCSI".data, .ws, .lit "sense".data, .anyLazy, .lit "Medium error".data],
      patStr := "SCSI\\s+sense.*?Medium error",
      title := "Storage Medium Errors",
      description := "Storage devices are reporting medium errors which may indicate failing hardware",
      category := CATEGORY_STORAGE,
      severity := SEVERITY_HIGH,
      solution := "Run hardware diagnostics on the storage and consider replacing failing drives",
      doc_links := ["https://kb.vmware.com/s/article/1008493"] },
    { pats := [.lit "NMP: nmp_ThrottleLogForDevice".data, .anyLazy, .lit "device is blocked".data],
      patStr := "NMP: nmp_ThrottleLogForDevice.*?device is blocked",
      title := "Storage Device Throttling",
      description := "One or more storage devices are being throttled due to errors or performance issues",
      category := CATEGORY_STORAGE,
      severity := SEVERITY_HIGH,
      solution := "Check storage array health and connectivity",
      doc_links := ["https://kb.vmware.com/s/article/2036778"] },
    { pats := [.lit "out".data, .ws, .lit "of".data, .ws, .lit "memory".data],
      patStr := "out\\s+of\\s+memory",
      title := "Out of Memory Condition",
      description := "The ESXi host is experiencing memory pressure and may be running out of available memory",
      category := CATEGORY_MEMORY,
      severity := SEVERITY_CRITICAL,
      solution := "Add more physical memory or reduce memory consumption by VMs",
      doc_links := ["https://kb.vmware.com/s/article/2005631"] },
    { pats := [.lit "CPU".data, .ws, .lit "usage".data, .anyLazy, .lit "above".data, .anyLazy, .lit "threshold".data],
      patStr := "CPU\\s+usage.*?above.*?threshold",
      title := "High CPU Utilization",
      description := "The ESXi host is experiencing high CPU utilization above configured thresholds",
      category := CATEGORY_CPU,
      severity := SEVERITY_MEDIUM,
      solution := "Identify resource-intensive VMs and consider load balancing or adding CPU resources",
      doc_links := ["https://kb.vmware.com/s/article/2001003"] },
    { pats := [.lit "watchdog".data, .ws, .lit "timeout".data],
      patStr := "watchdog\\s+timeout",
      title := "Watchdog Timeout",
      description := "System watchdog timeout events detected which may indicate system instability",
      category := CATEGORY_HARDWARE,
      severity := SEVERITY_HIGH,
      solution := "Check for hardware issues and consider updating ESXi and firmware",
      doc_links := ["https://kb.vmware.com/s/article/2042355"] },
    { pats := [.lit "Purple".data, .ws, .lit "Screen".data],
      patStr := "Purple\\s+Screen",
      title := "PSoD (Purple Screen of Death)",
      description := "The ESXi host has experienced one or more system crashes",
      category := CATEGORY_HARDWARE,
      severity := SEVERITY_CRITICAL,
      solution := "Collect diagnostic information and contact VMware support",
      doc_links := ["https://kb.vmware.com/s/article/1004250"] } ]

def flattenNl (cs : List Char) : List Char :=
  cs.map fun c => if c == '\n' then ' ' else c

/-- Snippet around a match span: `log_content[max(0,s-50):min(len,e+50)]`
with newlines replaced by spaces and both ends stripped. -/
def snippetAt (content : List Char) (s e : ℕ) : String :=
  let a := s - 50
  let b := min content.length (e + 50)
  String.mk (trimCL (flattenNl ((content.drop a).take (b - a))))

def logIssuesFor (fileName content : String) (entry : LogPatternEntry) : List Issue :=
  let ms := findAll true entry.pats content
  if ms.isEmpty then []
  else
    [{ title := entry.title,
       description := entry.description,
       category := entry.category,
       severity := entry.severity,
       evidence :=
         (fileName ++ ": " ++ toString ms.length ++ " occurrences of pattern '" ++
           entry.patStr ++ "'")
         :: (ms.take 3).map (fun m => "Sample: ..." ++ snippetAt content.data m.1 m.2.1 ++ "..."),
       solution := entry.solution,
       doc_links := entry.doc_links }]

/-- `_analyze_logs`: `none` models an absent `logs/` directory (the method
returns at once); otherwise the staged log files are processed in directory
listing order, each against the six patterns in table order. -/
def analyzeLogs : Option (List (String × String)) → List Issue
  | none => []
  | some files => files.flatMap fun f => errorPatternTable.flatMap fun e => logIssuesFor f.1 f.2 e

/-! ## The staging area and the detector engine (`IssueAnalyzer.analyze`) -/

/-- The staged artifacts read by the analyzer.  `none` is the explicit
"absent" state (file missing from the staging directory), distinct from
`some ""` (present but empty).  `logsDir` is the `logs/` subdirectory:
`none` when absent, otherwise the staged log files in directory listing
order. -/
structure StagingArea where
  system_version : Option String
  system_uptime : Option String
  perf_cpu_stats : Option String
  perf_memory_info : Option String
  hw_health_status : Option String
  hw_sensors : Option String
  hw_storage_devices : Option String
  perf_disk_latency : Option String
  vm_datastore_info : Option String
  net_interfaces : Option String
  net_vswitches : Option String
  net_vmkernel : Option String
  vm_list : Option String
  vm_stats : Option String
  logsDir : Option (List (String × String))
deriving Repr

/-- `IssueAnalyzer._read_file`: an absent (or unreadable) artifact reads as
the empty string. -/
def readFileD (a : Option String) : String := a.getD ""

/-- `IssueAnalyzer.analyze`: runs the detectors in declaration order
(system → performance → hardware → storage → network → vm → logs), each
appending its findings to the shared output list. -/
def analyze (cfg : Thresholds) (sa : StagingArea) : List Issue :=
  analyzeSystemInfo cfg.max_uptime_days (readFileD sa.system_version) (readFileD sa.system_uptime) ++
  analyzePerformance cfg.high_cpu_percent cfg.high_memory_percent
    (readFileD sa.perf_cpu_stats) (readFileD sa.perf_memory_info) ++
  analyzeHardware (readFileD sa.hw_health_status) (readFileD sa.hw_sensors) ++
  analyzeStorage cfg.high_latency_ms cfg.low_datastore_space_percent
    (readFileD sa.hw_storage_devices) (readFileD sa.perf_disk_latency)
    (readFileD sa.vm_datastore_info) ++
  analyzeNetwork (readFileD sa.net_interfaces) (readFileD sa.net_vswitches)
    (readFileD sa.net_vmkernel) ++
  analyzeVMs (readFileD sa.vm_list) (readFileD sa.vm_stats) ++
  analyzeLogs sa.logsDir

/-- A staging area with every artifact absent. -/
def stagingAllAbsent : StagingArea :=
  ⟨none, none, none, none, none, none, none, none, none, none, none, none, none, none, none⟩

/-- A staging area with every artifact present but empty (and an existing
but empty `logs/` directory). -/
def stagingAllEmpty : StagingArea :=
  ⟨some "", some "", some "", some "", some "", some "", some "", some "",
   some "", some "", some "", some "", some "", some "", some []⟩

/-! ## Aggregation (`ReportGenerator._generate_html`, src/lib/report.py)

The report step counts findings per severity, sorts them stably by the
severity rank `critical(0) > high(1) > medium(2) > low(3)` (anything else
ranks 4), and then groups the *sorted* list by category, a category's group
being created on its first appearance in the sorted list. -/

/-- `severity_order.get(x.severity, 4)` with
`severity_order = {"critical": 0, "high": 1, "medium": 2, "low": 3}`. -/
def severityOrderKey (s : String) : ℕ :=
  if s = "critical" then 0
  else if s = "high" then 1
  else if s = "medium" then 2
  else if s = "low" then 3
  else 4

/-- `severity_counts[s]` after the counting loop: the number of findings
whose severity is `s` (the dict only tracks the four known severities). -/
def severityCount (issues : List Issue) (s : String) : ℕ :=
  (issues.filter (fun i => i.severity == s)).length

/-- `sorted(self.issues, key=lambda x: severity_order.get(x.severity, 4))`.
Python's `sorted` is stable; for this 5-valued key a stable sort is exactly
the concatenation of the key buckets in key order, each bucket keeping the
original (detection) order. -/
def sortedIssues (issues : List Issue) : List Issue :=
  [0, 1, 2, 3, 4].flatMap fun r =>
    issues.filter fun i => severityOrderKey i.severity == r

/-- One step of the grouping loop: `issues_by_category.setdefault-like`
insertion (`if cat not in dict: dict[cat] = []` then append). -/
def insertIssue (gs : List (String × List Issue)) (i : Issue) : List (String × List Issue) :=
  if gs.any (fun p => p.1 == i.category) then
    gs.map fun p => if p.1 == i.category then (p.1, p.2 ++ [i]) else p
  else gs ++ [(i.category, [i])]

/-- The grouping loop over a list of findings (an ordered association list
models the insertion-ordered Python dict). -/
def groupByCategory (l : List Issue) : List (String × List Issue) :=
  l.foldl insertIssue []

/-- `issues_by_category` as built by `_generate_html`: grouping of the
severity-sorted list. -/
def generateReportGroups (issues : List Issue) : List (String × List Issue) :=
  groupByCategory (sortedIssues issues)

/-- First-match lookup in the ordered association list. -/
def lookupG : List (String × List Issue) → String → Option (List Issue)
  | [], _ => none
  | (k, v) :: rest, c => if k == c then some v else lookupG rest c

/-- Deduplicate a list of category names, keeping the first occurrence of
each, relative to an already-seen list. -/
def firstSeenAux (seen : List String) : List String → List String
  | [] => []
  | c :: rest =>
      if seen.any (fun s => s == c) then firstSeenAux seen rest
      else c :: firstSeenAux (seen ++ [c]) rest

/-- Category names in order of first appearance. -/
def dedupFirstSeen (cats : List String) : List String := firstSeenAux [] cats

/-- Modelled from the spec's words, for comparison with the code: "a
grouping by category preserving first-seen category order", reading
"first-seen" on the Finding list in detection order. -/
def firstSeenCategories (issues : List Issue) : List String :=
  dedupFirstSeen (issues.map fun i => i.category)

/-! ## Transport session: connection retry loop
(`LogCollector._ssh_connection`, src/lib/collector.py)

The loop `for attempt in range(self.retry_attempts)` is modelled over an
oracle giving the outcome of each `ssh.connect` attempt.  A successful
attempt yields the connection; `socket.timeout`/`socket.error` sleeps
`retry_delay * 2 ** attempt` (when another attempt remains) and retries;
`paramiko.AuthenticationException` raises `ConnectionError` immediately;
any other exception also sleeps the same backoff and retries.  Exhausting
the range raises `ConnectionError`. -/

inductive AttemptOutcome where
  | ok
  | sockErr
  | authErr
  | otherErr
deriving Repr, DecidableEq

inductive ConnResult where
  | connected : ℕ → ConnResult
  | authFailed : ℕ → ConnResult
  | exhausted : ℕ → ConnResult
deriving Repr, DecidableEq

/-- The observable outcome of the retry loop: the result (tagged with the
number of attempts made) and the list of backoff delays slept, in order. -/
structure ConnTrace where
  result : ConnResult
  delays : List ℕ
deriving Repr, DecidableEq

def connectLoop (retry_attempts retry_delay : ℕ) (oracle : ℕ → AttemptOutcome)
    (attempt : ℕ) : ConnTrace :=
  if _h : attempt < retry_attempts then
    match oracle attempt with
    | .ok => ⟨.connected (attempt + 1), []⟩
    | .authErr => ⟨.authFailed (attempt + 1), []⟩
    | .sockErr =>
        let rest := connectLoop retry_attempts retry_delay oracle (attempt + 1)
        if attempt < retry_attempts - 1 then
          ⟨rest.result, retry_delay * 2 ^ attempt :: rest.delays⟩
        else ⟨rest.result, rest.delays⟩
    | .otherErr =>
        let rest := connectLoop retry_attempts retry_delay oracle (attempt + 1)
        if attempt < retry_attempts - 1 then
          ⟨rest.result, retry_delay * 2 ^ attempt :: rest.delays⟩
        else ⟨rest.result, rest.delays⟩
  else ⟨.exhausted attempt, []⟩
termination_by retry_attempts - attempt

/-- `_ssh_connection` connection phase, starting at attempt 0. -/
def sshConnect (retry_attempts retry_delay : ℕ) (oracle : ℕ → AttemptOutcome) : ConnTrace :=
  connectLoop retry_attempts retry_delay oracle 0

/-! ## Collection (`LogCollector.collect`, src/lib/collector.py)

`collect()` creates a staging directory, then runs the command groups (each
item individually wrapped in try/except: a failing item is logged and
skipped) and fetches the log files (same per-item policy; `FileNotFoundError`
silently skipped).  If anything inside the `try` block raises
(connection failure, or `os.makedirs` for the `logs/` subdirectory), the
`except` branch of `collect` deletes the staging directory with
`shutil.rmtree` and re-raises — regardless of what was already staged. -/

inductive CmdOutcome where
  | ok : String → String → CmdOutcome   -- stdout, stderr
  | timeout
  | execFail
deriving Repr

/-- `_run_command`: the file content written on success (stdout, with a
stderr section appended when stderr is non-empty); `none` when the command
raised (timeout or execution error). -/
def runCommandModel : CmdOutcome → Option String
  | .ok out err => some (out ++ (if err = "" then "" else "\n\n--- STDERR ---\n" ++ err))
  | .timeout => none
  | .execFail => none

/-- The `commands` dict of `_collect_system_info` (logical name, command). -/
def systemCommands : List (String × String) :=
  [("version", "vmware -v"),
   ("system_info", "esxcli system version get"),
   ("uptime", "uptime"),
   ("hostname", "hostname"),
   ("time_info", "esxcli system time get"),
   ("boot_device", "esxcli system boot device get"),
   ("licenses", "esxcli software license list")]

/-- The `commands` dict of `_collect_performance_metrics`. -/
def performanceCommands : List (String × String) :=
  [("cpu_info", "esxcli hardware cpu list"),
   ("cpu_stats", "esxtop -b -n 1 -d 5 -c"),
   ("memory_info", "esxcli hardware memory get"),
   ("system_stats", "esxcli system stats system get"),
   ("disk_latency", "esxcli storage core device stats get"),
   ("io_stats", "esxtop -b -n 1 -d 5 -d")]

/-- The `commands` dict of `_collect_hardware_status`. -/
def hardwareCommands : List (String × String) :=
  [("storage_devices", "esxcli storage core device list"),
   ("hba_info", "esxcli storage core adapter list"),
   ("health_status", "esxcli hardware platform get"),
   ("sensors", "esxcli hardware sensor list"),
   ("pci_devices", "lspci")]

/-- The `commands` dict of `_collect_vm_states`. -/
def vmCommands : List (String × String) :=
  [("vm_list", "esxcli vm process list"),
   ("vm_stats", "esxtop -b -n 1 -d 5 -v"),
   ("datastore_info", "esxcli storage filesystem list")]

/-- The `commands` dict of `_collect_network_config`. -/
def networkCommands : List (String × String) :=
  [("interfaces", "esxcli network ip interface list"),
   ("vswitches", "esxcli network vswitch standard list"),
   ("portgroups", "esxcli network vswitch standard portgroup list"),
   ("vmkernel", "esxcli network ip interface ipv4 get"),
   ("neighbors", "esxcli network ip neighbor list"),
   ("dns_info", "esxcli network ip dns server list"),
   ("firewall_status", "esxcli network firewall get")]

/-- The `log_files` list of `_collect_logs`. -/
def logFilePaths : List String :=
  ["/var/log/vmkernel.log",
   "/var/log/hostd.log",
   "/var/log/auth.log",
   "/var/log/syslog.log",
   "/var/log/vpxa.log",
   "/var/log/fdm.log",
   "/var/log/esxi_install.log"]

/-- One command group: each item staged under `pre ++ name ++ ".txt"` on
success; a raising item is caught, logged and skipped. -/
def collectGroup (outcomes : String → CmdOutcome) (pre : String)
    (cmds : List (String × String)) : List (String × String) :=
  cmds.foldl
    (fun acc p =>
      let fname := pre ++ p.1 ++ ".txt"
      match runCommandModel (outcomes fname) with
      | some content => acc ++ [(fname, content)]
      | none => acc)
    []

/-- All five command groups in collection order. -/
def collectAllCommands (outcomes : String → CmdOutcome) : List (String × String) :=
  collectGroup outcomes "system_" systemCommands ++
  collectGroup outcomes "perf_" performanceCommands ++
  collectGroup outcomes "hw_" hardwareCommands ++
  collectGroup outcomes "vm_" vmCommands ++
  collectGroup outcomes "net_" networkCommands

inductive FetchOutcome where
  | ok : String → FetchOutcome
  | notFound
  | fetchErr
deriving Repr

/-- `os.path.basename` for the remote log paths. -/
def baseNameStr (p : String) : String := String.mk ((splitOnCh '/' p.data).getLastD p.data)

/-- `_collect_logs` after the `logs/` directory exists: per-file SFTP
fetches, `FileNotFoundError` and other per-file errors both skipped; an
SFTP setup failure is caught and logged, yielding no log files at all. -/
def collectLogsModel (sftpOk : Bool) (fetch : String → FetchOutcome) : List (String × String) :=
  if sftpOk then
    logFilePaths.foldl
      (fun acc p =>
        match fetch p with
        | .ok c => acc ++ [("logs/" ++ baseNameStr p, c)]
        | .notFound => acc
        | .fetchErr => acc)
      []
  else []

/-- The environment of one collection run: whether the SSH session could be
established, the outcome of each catalogued command (keyed by its staging
file name), whether creating the local `logs/` directory succeeded
(a local-storage failure there is fatal), whether the SFTP channel opened,
and the outcome of each log-file fetch. -/
structure CollectEnv where
  connectOk : Bool
  cmdOutcomes : String → CmdOutcome
  mkdirLogsOk : Bool
  sftpOk : Bool
  fetchOutcomes : String → FetchOutcome

/-- The `try` block of `collect`: the files staged so far, and whether an
exception escaped (fatally) out of the block. -/
def collectBody (env : CollectEnv) : List (String × String) × Bool :=
  if env.connectOk = false then ([], true)
  else
    let staged := collectAllCommands env.cmdOutcomes
    if env.mkdirLogsOk = false then (staged, true)
    else (staged ++ collectLogsModel env.sftpOk env.fetchOutcomes, false)

/-- The observable outcome of `collect()`: whether it re-raised, and the
staging directory contents (`none` after the `except` branch ran
`shutil.rmtree` on it). -/
structure CollectResult where
  raised : Bool
  stagingDir : Option (List (String × String))
deriving Repr, DecidableEq

/-- `collect()`: on a fatal exception the `except` branch deletes the
staging directory (whatever it contained) and re-raises; otherwise the
directory with all staged artifacts is returned. -/
def collect (env : CollectEnv) : CollectResult :=
  let r := collectBody env
  if r.2 then ⟨true, none⟩ else ⟨false, some r.1⟩

/-! ## Concrete inputs used by the claim theorems below -/

def memC1input : String := "Free Memory: 5 MB\nTotal Memory: 100 MB"

/-- The single finding produced on `memC1input` under default configuration. -/
def memC1finding : Issue :=
  { title := "Low Available Memory",
    description := "The ESXi host is running low on available memory (5.0% free)",
    category := CATEGORY_MEMORY,
    severity := SEVERITY_HIGH,
    evidence := ["Free memory: 5 MB out of 100 MB (5.0%)"],
    solution := "Consider adding more memory or reducing VM memory allocations",
    doc_links := ["https://kb.vmware.com/s/article/1003501"] }

/-- First attempt raises a generic (neither socket nor authentication)
error; the second succeeds. -/
def c3oracle : ℕ → AttemptOutcome :=
  fun k => if k = 0 then .otherErr else .ok

/-- Connection and all 28 catalogued commands succeed, then creating the
local `logs/` directory fails — a fatal local-storage failure after 28
artifacts were staged. -/
def c4env : CollectEnv :=
  ⟨true, fun _ => .ok "output" "", false, true, fun _ => .notFound⟩

/-- The staging action of one catalogued command under outcome oracle `o`
and file-name prefix `pre`. -/
def stageFn (o : String → CmdOutcome) (pre : String) (p : String × String) :
    Option (String × String) :=
  (runCommandModel (o (pre ++ p.1 ++ ".txt"))).map
    (fun content => (pre ++ p.1 ++ ".txt", content))

/-- Two of the 28 catalogued commands time out, every other command
succeeds, no log file exists remotely. -/
def c7env : CollectEnv :=
  ⟨true,
   fun f =>
     if f = "system_uptime.txt" then .timeout
     else if f = "net_dns_info.txt" then .timeout
     else .ok "data" "",
   true, true, fun _ => .notFound⟩

/-- Detection order: a `medium/storage` finding, then a `critical/network`
finding.  First-seen category order of the detection list is
`[storage, network]`; the report groups by the sorted list and yields
`[network, storage]`. -/
def c8detect : List Issue :=
  [⟨"t1", "d1", CATEGORY_STORAGE, SEVERITY_MEDIUM, [], "", []⟩,
   ⟨"t2", "d2", CATEGORY_NETWORK, SEVERITY_CRITICAL, [], "", []⟩]

/-- Findings detected with severities `[medium, critical, low, high]` in
one category. -/
def c8example : List Issue :=
  [⟨"a", "", CATEGORY_CPU, SEVERITY_MEDIUM, [], "", []⟩,
   ⟨"b", "", CATEGORY_CPU, SEVERITY_CRITICAL, [], "", []⟩,
   ⟨"c", "", CATEGORY_CPU, SEVERITY_LOW, [], "", []⟩,
   ⟨"d", "", CATEGORY_CPU, SEVERITY_HIGH, [], "", []⟩]

/-! ## General lemmas about substring containment -/

theorem isPrefCL_append (xs ys : List Char) : isPrefCL xs (xs ++ ys) = true := by
  induction xs with
  | nil => simp [isPrefCL]
  | cons a xs ih => simp [isPrefCL, ih]

theorem containsSubCL_of_isPref (pat hay : List Char) (h : isPrefCL pat hay = true) :
    containsSubCL pat hay = true := by
  cases hay with
  | nil => simpa [containsSubCL] using h
  | cons c rest => simp [containsSubCL, h]

theorem containsSubCL_append_middle (pat : List Char) :
    ∀ (pre suf : List Char), containsSubCL pat (pre ++ (pat ++ suf)) = true := by
  intro pre
  induction pre with
  | nil =>
      intro suf
      exact containsSubCL_of_isPref _ _ (isPrefCL_append pat suf)
  | cons c pre ih =>
      intro suf
      simp [containsSubCL, ih suf]

/-- A string of the form `a ++ b ++ c` contains `b`. -/
theorem strContainsSub_middle (a b c : String) : strContainsSub (a ++ b ++ c) b = true := by
  have : (a ++ b ++ c).data = a.data ++ (b.data ++ c.data) := by
    simp [String.data_append]
  simp only [strContainsSub, this]
  exact containsSubCL_append_middle b.data a.data c.data

/-- A string of the form `a ++ b` contains `b`. -/
theorem strContainsSub_right (a b : String) : strContainsSub (a ++ b) b = true := by
  have : (a ++ b).data = a.data ++ (b.data ++ []) := by
    simp [String.data_append]
  simp only [strContainsSub, this]
  exact containsSubCL_append_middle b.data a.data []

theorem issueMentions_of_description (i : Issue) (s : String)
    (h : strContainsSub i.description s = true) : issueMentions i s = true := by
  simp [issueMentions, h]

theorem issueMentions_of_evidence (i : Issue) (s e : String)
    (he : e ∈ i.evidence) (h : strContainsSub e s = true) : issueMentions i s = true := by
  have : i.evidence.any (fun x => strContainsSub x s) = true :=
    List.any_eq_true.mpr ⟨e, he, h⟩
  simp [issueMentions, this]

/-! ## Claim C1 (memory detector)

The detection condition is as claimed (`used_percent = 100 - free/total*100`
strictly above the default threshold 90, exactly one `high/memory` finding,
and free=20/total=100 below threshold yields none) — but the finding's text
renders the **free** percentage `free/total*100` to one decimal place, not
the used percentage: for free=5, total=100 the finding contains `"5.0"` and
not `"95.0"`. -/





theorem fmt1_five : fmt1 5 = "5.0" := by
  have h1 : (5 : ℚ) * 10 = ((50 : ℤ) : ℚ) := by norm_num
  have h2 : roundHalfEvenQ ((5 : ℚ) * 10) = 50 := by
    rw [h1]
    simp [roundHalfEvenQ, Int.floor_intCast]
  simp only [fmt1, h2]
  decide

/-- Claim C1 is false on the code: for free=5 MB, total=100 MB (used
percentage 95.0) the memory detector emits exactly one finding, but no
textual field of that finding contains `"95.0"`; the rendered percentage is
the free percentage `"5.0"`. -/
theorem claimC1_counterexample :
    memoryIssues defaultThresholds.high_memory_percent memC1input = [memC1finding] ∧
    issueMentions memC1finding "95.0" = false ∧
    issueMentions memC1finding "5.0" = true := by
  refine ⟨?_, by decide, by decide⟩
  have hF : memFreeOf memC1input = some 5 := by decide
  have hT : memTotalOf memC1input = some 100 := by decide
  have hfp : ((5 : ℕ) : ℚ) / ((100 : ℕ) : ℚ) * 100 = 5 := by norm_num
  simp only [memoryIssues, hF, hT, hfp]
  norm_num [defaultThresholds, fmt1_five, memC1finding]
  decide

/-- Claim C1 as amended: under default configuration, whenever the memory
artifact reports free F MB and total T MB with T > 0, the detector emits
exactly one `high/memory` finding iff `100 - (F/T)*100 > 90`, and the
finding's text renders the **free** percentage `(F/T)*100` to one decimal
place (for F=5, T=100: `"5.0"`, not the used percentage `"95.0"`). -/
theorem claimC1_amended :
    ∀ (s : String) (F T : ℕ),
      memFreeOf s = some F → memTotalOf s = some T → 0 < T →
      ((90 : ℚ) < 100 - (F : ℚ) / (T : ℚ) * 100 →
        ∃ i : Issue,
          memoryIssues defaultThresholds.high_memory_percent s = [i] ∧
          i.category = CATEGORY_MEMORY ∧ i.severity = SEVERITY_HIGH ∧
          issueMentions i (fmt1 ((F : ℚ) / (T : ℚ) * 100)) = true) ∧
      (¬ ((90 : ℚ) < 100 - (F : ℚ) / (T : ℚ) * 100) →
        memoryIssues defaultThresholds.high_memory_percent s = []) := by
  intro s F T hF hT hTpos
  constructor
  · intro hgt
    refine ⟨⟨"Low Available Memory",
      "The ESXi host is running low on available memory (" ++
        fmt1 ((F : ℚ) / (T : ℚ) * 100) ++ "% free)",
      CATEGORY_MEMORY, SEVERITY_HIGH,
      ["Free memory: " ++ toString F ++ " MB out of " ++ toString T ++ " MB (" ++
        fmt1 ((F : ℚ) / (T : ℚ) * 100) ++ "%)"],
      "Consider adding more memory or reducing VM memory allocations",
      ["https://kb.vmware.com/s/article/1003501"]⟩, ?_, rfl, rfl, ?_⟩
    · simp only [memoryIssues, hF, hT, if_pos hTpos]
      rw [if_pos (show defaultThresholds.high_memory_percent <
        100 - (F : ℚ) / (T : ℚ) * 100 from hgt)]
    · exact issueMentions_of_description _ _ (strContainsSub_middle _ _ _)
  · intro hle
    simp only [memoryIssues, hF, hT, if_pos hTpos]
    rw [if_neg (show ¬ defaultThresholds.high_memory_percent <
      100 - (F : ℚ) / (T : ℚ) * 100 from hle)]

/-- Witness for C1: the amended theorem applied at the concrete artifact
`memC1input` (free=5 MB, total=100 MB). -/
theorem claimC1_witness :
    ∃ i : Issue,
      memoryIssues defaultThresholds.high_memory_percent memC1input = [i] ∧
      i.category = CATEGORY_MEMORY ∧ i.severity = SEVERITY_HIGH ∧
      issueMentions i (fmt1 (((5 : ℕ) : ℚ) / (((100 : ℕ)) : ℚ) * 100)) = true :=
  (claimC1_amended memC1input 5 100 (by decide) (by decide) (by norm_num)).1 (by norm_num)

/-! ## Claim C10 (no division by zero on total = 0) -/

/-- C10: the memory detector guards on `total_mem > 0`; a memory artifact
reporting zero total memory produces no finding (for any threshold), and in
particular the quotient `free/total` is never formed. -/
theorem claimC10_total_zero :
    ∀ (high_memory_percent : ℚ) (s : String) (F : ℕ),
      memFreeOf s = some F → memTotalOf s = some 0 →
      memoryIssues high_memory_percent s = [] := by
  intro θ s F hF hT
  simp [memoryIssues, hF, hT]

/-- Witness for C10 at a concrete artifact with `Total Memory: 0 MB`. -/
theorem claimC10_witness :
    memoryIssues 90 "Free Memory: 5 MB\nTotal Memory: 0 MB" = [] :=
  claimC10_total_zero 90 "Free Memory: 5 MB\nTotal Memory: 0 MB" 5
    (by decide) (by decide)

/-! ## Claim C5 (version detector) -/

/-- C5: for an artifact whose leftmost `VMware ESXi <major>.<minor>` token
has numeric value `v`: `v < 6.5` yields exactly one `high/security` finding
whose evidence contains the token text; `6.5 ≤ v < 7.0` exactly one
`medium/security` finding (also carrying the token in its evidence);
`v ≥ 7.0` no finding; an absent token yields no finding (and the detector,
being a total function, raises nothing). -/
theorem claimC5_version :
    ∀ s : String,
      (∀ a b : List Char, versionTokOf s = some (a, b) →
        (verValQ a b < 6.5 →
          ∃ i : Issue, versionIssues s = [i] ∧ i.category = CATEGORY_SECURITY ∧
            i.severity = SEVERITY_HIGH ∧
            i.evidence.any (fun e => strContainsSub e (String.mk (a ++ '.' :: b))) = true) ∧
        (6.5 ≤ verValQ a b → verValQ a b < 7.0 →
          ∃ i : Issue, versionIssues s = [i] ∧ i.category = CATEGORY_SECURITY ∧
            i.severity = SEVERITY_MEDIUM ∧
            i.evidence.any (fun e => strContainsSub e (String.mk (a ++ '.' :: b))) = true) ∧
        (7.0 ≤ verValQ a b → versionIssues s = [])) ∧
      (versionTokOf s = none → versionIssues s = []) := by
  intro s
  constructor
  · intro a b h
    refine ⟨?_, ?_, ?_⟩
    · intro hlt
      refine ⟨⟨"EOL ESXi Version",
        "ESXi version " ++ String.mk (a ++ '.' :: b) ++
          " has reached end of life and is no longer receiving security updates",
        CATEGORY_SECURITY, SEVERITY_HIGH,
        ["Detected ESXi version: " ++ String.mk (a ++ '.' :: b)],
        "Upgrade to a supported ESXi version (7.0 or newer recommended)",
        ["https://kb.vmware.com/s/article/2145103"]⟩, ?_, rfl, rfl, ?_⟩
      · simp only [versionIssues, h, if_pos hlt]
      · simp only [List.any_cons, List.any_nil, Bool.or_false]
        exact strContainsSub_right _ _
    · intro hge hlt
      refine ⟨⟨"Outdated ESXi Version",
        "ESXi version " ++ String.mk (a ++ '.' :: b) ++
          " is outdated and will soon reach end of life",
        CATEGORY_SECURITY, SEVERITY_MEDIUM,
        ["Detected ESXi version: " ++ String.mk (a ++ '.' :: b)],
        "Consider upgrading to ESXi 7.0 or newer for the latest features and security updates",
        ["https://kb.vmware.com/s/article/2145103"]⟩, ?_, rfl, rfl, ?_⟩
      · simp only [versionIssues, h, if_neg (not_lt.mpr hge), if_pos hlt]
      · simp only [List.any_cons, List.any_nil, Bool.or_false]
        exact strContainsSub_right _ _
    · intro hge
      have h65 : (6.5 : ℚ) ≤ verValQ a b := le_trans (by norm_num) hge
      simp only [versionIssues, h, if_neg (not_lt.mpr h65), if_neg (not_lt.mpr hge)]
  · intro h
    simp [versionIssues, h]

/-- Witness for C5: a concrete EOL version artifact (`5.5 < 6.5` yields the
`high/security` finding carrying `"5.5"` in its evidence). -/
theorem claimC5_witness :
    ∃ i : Issue,
      versionIssues "VMware ESXi 5.5.0 Releasebuild-1331820" = [i] ∧
      i.category = CATEGORY_SECURITY ∧ i.severity = SEVERITY_HIGH ∧
      i.evidence.any
        (fun e => strContainsSub e (String.mk ("5".data ++ '.' :: "5".data))) = true := by
  have hv : verValQ "5".data "5".data < 6.5 := by
    have ha : digitsToNat "5".data = 5 := by decide
    have hl : ("5".data).length = 1 := by decide
    simp only [verValQ, decValQ, ha, hl]
    norm_num
  exact (((claimC5_version "VMware ESXi 5.5.0 Releasebuild-1331820").1
    "5".data "5".data (by decide)).1 hv)

/-! ## Claim C6 (uptime detector) -/

/-- C6: with the default threshold 180, an uptime artifact matching
`up <N> days` yields exactly one `medium/security` finding when `N > 180`
(strictly) and none when `N ≤ 180`; an artifact without the token yields
none. -/
theorem claimC6_uptime :
    ∀ s : String,
      (∀ days : ℕ, uptimeDaysOf s = some days →
        (180 < days →
          ∃ i : Issue,
            uptimeIssues defaultThresholds.max_uptime_days s = [i] ∧
            i.category = CATEGORY_SECURITY ∧ i.severity = SEVERITY_MEDIUM ∧
            issueMentions i (toString days) = true) ∧
        (days ≤ 180 → uptimeIssues defaultThresholds.max_uptime_days s = [])) ∧
      (uptimeDaysOf s = none → uptimeIssues defaultThresholds.max_uptime_days s = []) := by
  intro s
  constructor
  · intro days h
    constructor
    · intro hgt
      refine ⟨⟨"Excessive Uptime",
        "The ESXi host has been running for " ++ toString days ++
          " days without a reboot",
        CATEGORY_SECURITY, SEVERITY_MEDIUM,
        ["System uptime: " ++ toString days ++ " days"],
        "Schedule a maintenance window to apply pending updates and reboot the host",
        ["https://kb.vmware.com/s/article/2032823"]⟩, ?_, rfl, rfl, ?_⟩
      · simp only [uptimeIssues, h]
        rw [if_pos (show defaultThresholds.max_uptime_days < days from hgt)]
      · refine issueMentions_of_evidence _ _ ("System uptime: " ++ toString days ++ " days")
          (by simp) ?_
        exact strContainsSub_middle _ _ _
    · intro hle
      simp only [uptimeIssues, h]
      rw [if_neg (show ¬ defaultThresholds.max_uptime_days < days from not_lt.mpr hle)]
  · intro h
    simp [uptimeIssues, h]

/-- Witness for C6: 181 days yields exactly one `medium/security` finding;
180 days yields none. -/
theorem claimC6_witness :
    (∃ i : Issue,
      uptimeIssues defaultThresholds.max_uptime_days " 10:15:30 up 181 days,  4:12" = [i] ∧
      i.category = CATEGORY_SECURITY ∧ i.severity = SEVERITY_MEDIUM ∧
      issueMentions i (toString 181) = true) ∧
    uptimeIssues defaultThresholds.max_uptime_days " 10:15:30 up 180 days,  4:12" = [] :=
  ⟨((claimC6_uptime " 10:15:30 up 181 days,  4:12").1 181 (by decide)).1 (by decide),
   ((claimC6_uptime " 10:15:30 up 180 days,  4:12").1 180 (by decide)).2 (by decide)⟩

/-! ## Claim C9 (missing artifacts) -/

/-- C9: with every artifact absent, `analyze` returns the empty finding
list (for any configuration); a staging area where every artifact is
present but empty behaves identically, since `_read_file` maps both the
absent and the empty artifact to the same "no evidence" input.  Detectors
are total functions here, so no exception is possible by construction. -/
theorem claimC9_missing_artifacts :
    ∀ cfg : Thresholds,
      analyze cfg stagingAllAbsent = [] ∧
      analyze cfg stagingAllEmpty = [] ∧
      readFileD none = readFileD (some "") ∧
      analyze cfg stagingAllAbsent = analyze cfg stagingAllEmpty :=
  fun _ => ⟨rfl, rfl, rfl, rfl⟩

/-- Witness for C9 at the default configuration. -/
theorem claimC9_witness : analyze defaultThresholds stagingAllAbsent = [] :=
  (claimC9_missing_artifacts defaultThresholds).1

/-! ## Claim C2 (determinism and fixed detector order) -/

/-- C2: `analyze` is a pure function of the staged artifacts and the
configuration — two runs over equal staging states and configurations give
equal finding lists — and the output is exactly the concatenation of the
seven detectors' findings in declaration order
(system → performance → hardware → storage → network → vm → logs).
The only potential run-to-run variation, the directory listing order of
`logs/`, is part of the staging state (`logsDir`), so "identical staged
artifacts" fixes it. -/
theorem claimC2_determinism :
    ∀ (cfg cfg' : Thresholds) (sa sa' : StagingArea),
      cfg = cfg' → sa = sa' →
      analyze cfg sa = analyze cfg' sa' ∧
      analyze cfg sa =
        analyzeSystemInfo cfg.max_uptime_days (readFileD sa.system_version)
          (readFileD sa.system_uptime) ++
        analyzePerformance cfg.high_cpu_percent cfg.high_memory_percent
          (readFileD sa.perf_cpu_stats) (readFileD sa.perf_memory_info) ++
        analyzeHardware (readFileD sa.hw_health_status) (readFileD sa.hw_sensors) ++
        analyzeStorage cfg.high_latency_ms cfg.low_datastore_space_percent
          (readFileD sa.hw_storage_devices) (readFileD sa.perf_disk_latency)
          (readFileD sa.vm_datastore_info) ++
        analyzeNetwork (readFileD sa.net_interfaces) (readFileD sa.net_vswitches)
          (readFileD sa.net_vmkernel) ++
        analyzeVMs (readFileD sa.vm_list) (readFileD sa.vm_stats) ++
        analyzeLogs sa.logsDir := by
  intro cfg cfg' sa sa' hc hs
  subst hc
  subst hs
  exact ⟨rfl, rfl⟩

/-- Witness for C2 at concrete equal inputs. -/
theorem claimC2_witness :
    analyze defaultThresholds stagingAllEmpty = analyze defaultThresholds stagingAllEmpty :=
  (claimC2_determinism defaultThresholds defaultThresholds stagingAllEmpty stagingAllEmpty
    rfl rfl).1

/-! ## Claim C3 (connection retries)

The backoff formula and the never-retry-on-authentication-failure parts of
the claim hold, but "no other error kind triggers a retry" is false: the
final `except Exception` branch of `_ssh_connection` retries any other
exception with the same exponential backoff. -/



/-- C3 as stated is false: with `retry_attempts = 3`, `retry_delay = 2` and
a first-attempt error that is neither a socket error nor an authentication
failure, the code sleeps the backoff delay `2 * 2^0 = 2` and retries,
connecting on attempt 2 — whereas the claim requires that no error other
than a transient socket error triggers a retry (so no backoff delay would
ever be slept after such an error). -/
theorem claimC3_counterexample :
    sshConnect 3 2 c3oracle = ⟨.connected 2, [2]⟩ ∧
    ¬ (∀ (n d : ℕ) (oracle : ℕ → AttemptOutcome),
        oracle 0 = .otherErr → (sshConnect n d oracle).delays = []) := by
  have h1 : sshConnect 3 2 c3oracle = ⟨.connected 2, [2]⟩ := by
    rw [sshConnect, connectLoop, connectLoop]
    norm_num [c3oracle]
  refine ⟨h1, fun h => ?_⟩
  have h2 := h 3 2 c3oracle rfl
  rw [h1] at h2
  simp at h2

/-- C3 as amended: in the connection loop at any live attempt index,
a successful attempt connects at once; an authentication failure aborts at
once with no retry and no backoff sleep; and both a transient socket error
and any other non-authentication error are retried, sleeping exactly
`retry_delay * 2 ^ attempt` when another attempt remains and nothing when
the attempts are exhausted. -/
theorem claimC3_amended :
    ∀ (n d : ℕ) (oracle : ℕ → AttemptOutcome) (attempt : ℕ), attempt < n →
      (oracle attempt = .ok →
        connectLoop n d oracle attempt = ⟨.connected (attempt + 1), []⟩) ∧
      (oracle attempt = .authErr →
        connectLoop n d oracle attempt = ⟨.authFailed (attempt + 1), []⟩) ∧
      ((oracle attempt = .sockErr ∨ oracle attempt = .otherErr) → attempt < n - 1 →
        connectLoop n d oracle attempt =
          ⟨(connectLoop n d oracle (attempt + 1)).result,
            d * 2 ^ attempt :: (connectLoop n d oracle (attempt + 1)).delays⟩) ∧
      ((oracle attempt = .sockErr ∨ oracle attempt = .otherErr) → ¬ attempt < n - 1 →
        connectLoop n d oracle attempt = connectLoop n d oracle (attempt + 1)) := by
  intro n d oracle attempt hlt
  refine ⟨?_, ?_, ?_, ?_⟩
  · intro h
    rw [connectLoop]
    simp [hlt, h]
  · intro h
    rw [connectLoop]
    simp [hlt, h]
  · rintro (h | h) hlt2
    all_goals
      rw [connectLoop]
      simp [hlt, h, hlt2]
  · rintro (h | h) hlt2
    all_goals
      rw [connectLoop]
      simp [hlt, h, hlt2]

/-- Witness for C3: an authentication failure on the first attempt aborts
immediately, with no retry and no backoff sleep. -/
theorem claimC3_witness :
    connectLoop 3 2 (fun _ => AttemptOutcome.authErr) 0 = ⟨.authFailed 1, []⟩ :=
  (claimC3_amended 3 2 (fun _ => AttemptOutcome.authErr) 0 (by decide)).2.1 rfl

/-! ## Claim C4 (staging-area cleanup)

The first half of the claim holds (a fatal failure before anything was
staged removes the staging area), but the second half is false: the
`except` branch of `collect` runs `shutil.rmtree` on the staging directory
unconditionally, so a fatal failure occurring after artifacts were staged
(e.g. `os.makedirs` for `logs/` failing) deletes the partial results. -/



/-- C4 as stated is false: in `c4env` the collection fails fatally *after*
28 artifacts were staged, yet `collect` deletes the staging area
(`stagingDir = none`) instead of preserving the partial results. -/
theorem claimC4_counterexample :
    (collectBody c4env).1.length = 28 ∧
    (collectBody c4env).2 = true ∧
    collect c4env = ⟨true, none⟩ := by
  refine ⟨by decide, by decide, by decide⟩

/-- C4 as amended: on any fatal failure — whether before anything was
staged (session not established) or after artifacts were staged (local
`logs/` directory creation failed) — `collect` deletes the staging area
and re-raises; only a run with no fatal failure returns the staging area,
containing every staged artifact. -/
theorem claimC4_amended :
    ∀ env : CollectEnv,
      (env.connectOk = false → collect env = ⟨true, none⟩) ∧
      (env.mkdirLogsOk = false → collect env = ⟨true, none⟩) ∧
      (env.connectOk = true → env.mkdirLogsOk = true →
        collect env = ⟨false, some (collectAllCommands env.cmdOutcomes ++
          collectLogsModel env.sftpOk env.fetchOutcomes)⟩) := by
  intro env
  refine ⟨?_, ?_, ?_⟩
  · intro h
    simp [collect, collectBody, h]
  · intro h
    by_cases hc : env.connectOk = false
    · simp [collect, collectBody, hc]
    · simp [collect, collectBody, hc, h]
  · intro hc hm
    simp [collect, collectBody, hc, hm]

/-- Witness for C4: the amended theorem applied to `c4env` (fatal failure
after staging → staging area deleted). -/
theorem claimC4_witness : collect c4env = ⟨true, none⟩ :=
  (claimC4_amended c4env).2.1 rfl

/-! ## Claim C7 (per-item failure tolerance during collection) -/



theorem collectGroup_foldl_eq (o : String → CmdOutcome) (pre : String) :
    ∀ (cmds : List (String × String)) (acc : List (String × String)),
      cmds.foldl
        (fun acc p =>
          match runCommandModel (o (pre ++ p.1 ++ ".txt")) with
          | some content => acc ++ [(pre ++ p.1 ++ ".txt", content)]
          | none => acc)
        acc = acc ++ cmds.filterMap (stageFn o pre) := by
  intro cmds
  induction cmds with
  | nil => intro acc; simp
  | cons p cmds ih =>
      intro acc
      simp only [List.foldl_cons, List.filterMap_cons]
      cases h : runCommandModel (o (pre ++ p.1 ++ ".txt")) with
      | none => simp only [h, stageFn, Option.map_none', ih]
      | some content =>
          simp only [h, stageFn, Option.map_some', ih, List.append_assoc,
            List.singleton_append]

/-- `collectGroup` stages exactly the successful items, in catalogue order. -/
theorem collectGroup_eq_filterMap (o : String → CmdOutcome) (pre : String)
    (cmds : List (String × String)) :
    collectGroup o pre cmds = cmds.filterMap (stageFn o pre) := by
  have := collectGroup_foldl_eq o pre cmds []
  simpa [collectGroup] using this

/-- Staged count plus failed count equals the catalogue size. -/
theorem collectGroup_length (o : String → CmdOutcome) (pre : String)
    (cmds : List (String × String)) :
    (collectGroup o pre cmds).length +
      (cmds.filter
        (fun p => (runCommandModel (o (pre ++ p.1 ++ ".txt"))).isNone)).length =
      cmds.length := by
  rw [collectGroup_eq_filterMap]
  induction cmds with
  | nil => simp
  | cons p cmds ih =>
      cases h : runCommandModel (o (pre ++ p.1 ++ ".txt")) with
      | none =>
          simp [List.filterMap_cons, List.filter_cons, stageFn, h]
          omega
      | some content =>
          simp [List.filterMap_cons, List.filter_cons, stageFn, h]
          omega

/-- C7: when the session is established and the local staging area is
usable, per-item command failures are absorbed: `collect` returns normally
(nothing raised), the staging area holds exactly the artifacts of the
successful items (each group in catalogue order), and for every command
group the number of staged artifacts plus the number of failed items equals
the size of the catalogue — k failures among n commands leave exactly the
other n−k artifacts. -/
theorem claimC7_per_item_failures :
    ∀ env : CollectEnv, env.connectOk = true → env.mkdirLogsOk = true →
      (collect env).raised = false ∧
      (collect env).stagingDir =
        some (collectAllCommands env.cmdOutcomes ++
          collectLogsModel env.sftpOk env.fetchOutcomes) ∧
      (∀ (pre : String) (cmds : List (String × String)),
        collectGroup env.cmdOutcomes pre cmds =
          cmds.filterMap (stageFn env.cmdOutcomes pre) ∧
        (collectGroup env.cmdOutcomes pre cmds).length +
          (cmds.filter (fun p =>
            (runCommandModel (env.cmdOutcomes (pre ++ p.1 ++ ".txt"))).isNone)).length =
          cmds.length) := by
  intro env hc hm
  refine ⟨?_, ?_, ?_⟩
  · simp [collect, collectBody, hc, hm]
  · simp [collect, collectBody, hc, hm]
  · intro pre cmds
    exact ⟨collectGroup_eq_filterMap _ _ _, collectGroup_length _ _ _⟩



/-- Witness for C7: with 2 of the 28 catalogued commands failing, `collect`
returns normally and the staging area holds exactly the other 26 artifacts. -/
theorem claimC7_witness :
    (collect c7env).raised = false ∧
    (collect c7env).stagingDir.map List.length = some 26 :=
  ⟨(claimC7_per_item_failures c7env rfl rfl).1, by decide⟩

/-! ## Claim C8 (aggregation): supporting lemmas -/

theorem severityOrderKey_mem (s : String) : severityOrderKey s ∈ [0, 1, 2, 3, 4] := by
  unfold severityOrderKey
  split
  · simp
  · split
    · simp
    · split
      · simp
      · split <;> simp

theorem flatMap_congr_mem {α β : Type} :
    ∀ (ks : List α) (f g : α → List β), (∀ r ∈ ks, f r = g r) →
      ks.flatMap f = ks.flatMap g := by
  intro ks
  induction ks with
  | nil => intro f g _; rfl
  | cons k ks ih =>
      intro f g h
      simp only [List.flatMap_cons]
      rw [h k (by simp), ih f g (fun r hr => h r (by simp [hr]))]

/-- A list every element of which falls into one of the key buckets `ks`
(no key repeated) is a permutation of its bucket decomposition. -/
theorem bindFilter_perm :
    ∀ (ks : List ℕ) (l : List Issue), ks.Nodup →
      (∀ i ∈ l, severityOrderKey i.severity ∈ ks) →
      (ks.flatMap fun r => l.filter fun i => severityOrderKey i.severity == r).Perm l := by
  intro ks
  induction ks with
  | nil =>
      intro l _ h
      have : l = [] := by
        cases l with
        | nil => rfl
        | cons a l => exact absurd (h a (by simp)) (by simp)
      subst this
      simp
  | cons k ks ih =>
      intro l hnd h
      have hknotin : k ∉ ks := (List.nodup_cons.mp hnd).1
      have hndtail : ks.Nodup := (List.nodup_cons.mp hnd).2
      simp only [List.flatMap_cons]
      -- the remaining buckets ignore the elements with key k
      have hrest :
          (ks.flatMap fun r => l.filter fun i => severityOrderKey i.severity == r) =
          (ks.flatMap fun r =>
            (l.filter fun i => !(severityOrderKey i.severity == k)).filter
              fun i => severityOrderKey i.severity == r) := by
        apply flatMap_congr_mem
        intro r hr
        rw [List.filter_filter]
        apply List.filter_congr
        intro i _
        by_cases hik : severityOrderKey i.severity = r
        · have hrk : ¬ r = k := fun hrkeq => hknotin (hrkeq ▸ hr)
          simp [hik, hrk]
        · simp [hik]
      rw [hrest]
      have hih :
          ((ks.flatMap fun r =>
            (l.filter fun i => !(severityOrderKey i.severity == k)).filter
              fun i => severityOrderKey i.severity == r)).Perm
          (l.filter fun i => !(severityOrderKey i.severity == k)) := by
        apply ih _ hndtail
        intro i hi
        have hmem := List.of_mem_filter hi
        have hin := List.mem_of_mem_filter hi
        have := h i hin
        simp only [List.mem_cons] at this
        rcases this with hk | hks
        · exfalso
          rw [hk] at hmem
          simp at hmem
        · exact hks
      exact List.Perm.trans (List.Perm.append_left _ hih) (List.filter_append_perm _ l)

/-- The severity-sorted view is a permutation of the input findings. -/
theorem sortedIssues_perm (issues : List Issue) : (sortedIssues issues).Perm issues :=
  bindFilter_perm [0, 1, 2, 3, 4] issues (by decide)
    (fun i _ => severityOrderKey_mem i.severity)

theorem pairwise_filter_const (l : List Issue) (r : ℕ) :
    List.Pairwise (fun a b => severityOrderKey a.severity ≤ severityOrderKey b.severity)
      (l.filter fun i => severityOrderKey i.severity == r) := by
  induction l with
  | nil => simp
  | cons a l ih =>
      by_cases h : severityOrderKey a.severity = r
      · rw [List.filter_cons_of_pos (by simp [h])]
        refine List.pairwise_cons.mpr ⟨?_, ih⟩
        intro b hb
        have hb' := List.of_mem_filter hb
        simp only [beq_iff_eq] at hb'
        rw [h, hb']
      · rw [List.filter_cons_of_neg (by simp [h])]
        exact ih

theorem bindFilter_pairwise (l : List Issue) :
    ∀ ks : List ℕ, ks.Pairwise (· ≤ ·) →
      List.Pairwise (fun a b => severityOrderKey a.severity ≤ severityOrderKey b.severity)
        (ks.flatMap fun r => l.filter fun i => severityOrderKey i.severity == r) := by
  intro ks
  induction ks with
  | nil => intro _; simp
  | cons k ks ih =>
      intro hp
      have hk := List.pairwise_cons.mp hp
      simp only [List.flatMap_cons]
      refine List.pairwise_append.mpr ⟨pairwise_filter_const l k, ih hk.2, ?_⟩
      intro a ha b hb
      have ha' := List.of_mem_filter ha
      simp only [beq_iff_eq] at ha'
      obtain ⟨r, hr, hbr⟩ := List.mem_flatMap.mp hb
      have hb' := List.of_mem_filter hbr
      simp only [beq_iff_eq] at hb'
      rw [ha', hb']
      exact hk.1 r hr

/-- The severity-sorted view is ordered by the severity rank. -/
theorem sortedIssues_pairwise (issues : List Issue) :
    List.Pairwise (fun a b => severityOrderKey a.severity ≤ severityOrderKey b.severity)
      (sortedIssues issues) :=
  bindFilter_pairwise issues [0, 1, 2, 3, 4] (by decide)

theorem any_map_fst (c : String) :
    ∀ gs : List (String × List Issue),
      (gs.map Prod.fst).any (fun s => s == c) = gs.any (fun p => p.1 == c) := by
  intro gs
  induction gs with
  | nil => rfl
  | cons p gs ih => simp [List.any_cons, ih]

theorem keys_map_update (cat : String) (i : Issue) :
    ∀ gs : List (String × List Issue),
      ((gs.map fun p => if p.1 == cat then (p.1, p.2 ++ [i]) else p).map Prod.fst) =
        gs.map Prod.fst := by
  intro gs
  induction gs with
  | nil => rfl
  | cons p gs ih =>
      simp only [List.map_cons, ih]
      by_cases h : p.1 = cat
      · simp [h]
      · simp [h]

/-- Keys of the grouping fold: the accumulator's keys followed by the new
categories in order of first appearance. -/
theorem foldl_insertIssue_keys :
    ∀ (l : List Issue) (gs : List (String × List Issue)),
      (l.foldl insertIssue gs).map Prod.fst =
        gs.map Prod.fst ++ firstSeenAux (gs.map Prod.fst) (l.map fun i => i.category) := by
  intro l
  induction l with
  | nil => intro gs; simp [firstSeenAux]
  | cons i l ih =>
      intro gs
      rw [List.foldl_cons, ih (insertIssue gs i)]
      simp only [List.map_cons, firstSeenAux]
      rw [any_map_fst]
      by_cases hmem : gs.any (fun p => p.1 == i.category) = true
      · rw [if_pos hmem]
        have : insertIssue gs i = gs.map fun p =>
            if p.1 == i.category then (p.1, p.2 ++ [i]) else p := by
          simp [insertIssue, hmem]
        rw [this, keys_map_update]
      · rw [if_neg hmem]
        have : insertIssue gs i = gs ++ [(i.category, [i])] := by
          simp only [insertIssue]
          rw [if_neg hmem]
        rw [this]
        simp [List.append_assoc]

theorem lookupG_update (cat c : String) (i : Issue) :
    ∀ gs : List (String × List Issue),
      lookupG (gs.map fun p => if p.1 == cat then (p.1, p.2 ++ [i]) else p) c =
        if cat == c then (lookupG gs c).map (fun g => g ++ [i]) else lookupG gs c := by
  intro gs
  induction gs with
  | nil => by_cases h : cat = c <;> simp [lookupG, h]
  | cons p gs ih =>
      obtain ⟨k, v⟩ := p
      simp only [List.map_cons]
      by_cases hkcat : k = cat
      · rw [if_pos (by simpa using hkcat)]
        by_cases hkc : k = c
        · have hcatc : cat = c := by rw [← hkcat, hkc]
          simp [lookupG, hkc, hcatc]
        · have hcatc : ¬ cat = c := fun h => hkc (hkcat.trans h)
          simp only [lookupG, beq_iff_eq, if_neg hkc, if_neg hcatc] at ih ⊢
          exact ih
      · rw [if_neg (by simpa using hkcat)]
        by_cases hkc : k = c
        · have hcatc : ¬ cat = c := fun h => hkcat (by rw [hkc, h])
          simp [lookupG, hkc, hcatc]
        · simp only [lookupG, beq_iff_eq, if_neg hkc] at ih ⊢
          exact ih

theorem lookupG_append_single (k c : String) (v : List Issue) :
    ∀ gs : List (String × List Issue),
      lookupG (gs ++ [(k, v)]) c =
        match lookupG gs c with
        | some g => some g
        | none => if k == c then some v else none := by
  intro gs
  induction gs with
  | nil => simp [lookupG]
  | cons p gs ih =>
      simp only [List.cons_append, lookupG]
      by_cases hpc : p.1 = c
      · rw [if_pos (by simpa using hpc), if_pos (by simpa using hpc)]
      · rw [if_neg (by simpa using hpc), if_neg (by simpa using hpc)]
        exact ih

theorem any_fst_eq_lookupG_isSome (c : String) :
    ∀ gs : List (String × List Issue),
      gs.any (fun p => p.1 == c) = (lookupG gs c).isSome := by
  intro gs
  induction gs with
  | nil => rfl
  | cons p gs ih =>
      by_cases hpc : p.1 = c
      · simp [List.any_cons, lookupG, hpc]
      · simp [List.any_cons, lookupG, hpc, ih]

/-- Contents of the grouping fold: the group of a category holds the
accumulator's entry (if any) followed by the matching findings in input
order. -/
theorem foldl_insertIssue_lookupG :
    ∀ (l : List Issue) (gs : List (String × List Issue)) (c : String),
      lookupG (l.foldl insertIssue gs) c =
        match lookupG gs c with
        | some g => some (g ++ l.filter fun i => i.category == c)
        | none =>
            if l.any (fun i => i.category == c) then
              some (l.filter fun i => i.category == c)
            else none := by
  intro l
  induction l with
  | nil =>
      intro gs c
      cases hgs : lookupG gs c <;> simp [hgs]
  | cons i l ih =>
      intro gs c
      rw [List.foldl_cons, ih (insertIssue gs i) c]
      by_cases hmem : gs.any (fun p => p.1 == i.category) = true
      · have hup : insertIssue gs i = gs.map fun p =>
            if p.1 == i.category then (p.1, p.2 ++ [i]) else p := by
          simp [insertIssue, hmem]
        rw [hup, lookupG_update]
        by_cases hc : i.category = c
        · have hsome : (lookupG gs c).isSome := by
            rw [← any_fst_eq_lookupG_isSome, ← hc]
            exact hmem
          obtain ⟨g, hg⟩ := Option.isSome_iff_exists.mp hsome
          rw [if_pos (by simpa using hc), hg]
          simp [hg, List.filter_cons, hc, List.append_assoc]
        · rw [if_neg (by simpa using hc)]
          have hfilter : (List.filter (fun i => i.category == c) (i :: l)) =
              l.filter fun i => i.category == c := by
            simp [List.filter_cons, hc]
          have hany : (i :: l).any (fun i => i.category == c) =
              l.any fun i => i.category == c := by
            simp [List.any_cons, hc]
          cases hgs : lookupG gs c <;> simp [hgs, hfilter, hany]
      · have hap : insertIssue gs i = gs ++ [(i.category, [i])] := by
          simp only [insertIssue]
          rw [if_neg hmem]
        have hnone : lookupG gs i.category = none := by
          cases hgs : lookupG gs i.category with
          | none => rfl
          | some g =>
              exfalso
              apply hmem
              rw [any_fst_eq_lookupG_isSome, hgs]
              rfl
        rw [hap, lookupG_append_single]
        by_cases hc : i.category = c
        · rw [← hc, hnone]
          simp only [beq_self_eq_true, if_pos]
          simp [List.filter_cons, List.any_cons, hc]
        · have hgsne : lookupG (gs ++ [(i.category, [i])]) c = lookupG gs c := by
            rw [lookupG_append_single]
            cases hgs : lookupG gs c <;> simp [hgs, hc]
          have hfilter : (List.filter (fun i => i.category == c) (i :: l)) =
              l.filter fun i => i.category == c := by
            simp [List.filter_cons, hc]
          have hany : (i :: l).any (fun i => i.category == c) =
              l.any fun i => i.category == c := by
            simp [List.any_cons, hc]
          cases hgs : lookupG gs c <;> simp [hgs, hc, hfilter, hany]

/-! ## Claim C8 (aggregation): the claims

The counting, the stable severity sort and the within-category ordering are
as claimed, but the category order is **not** the first-seen order of the
detection list: `_generate_html` groups the severity-*sorted* list, so a
category's position is decided by its first (most severe) finding in the
sorted view. -/



/-- C8 as stated is false: on `c8detect` the aggregation's category order
differs from the first-seen category order of the (detection-ordered)
Finding list. -/
theorem claimC8_counterexample :
    (generateReportGroups c8detect).map Prod.fst = ["network", "storage"] ∧
    firstSeenCategories c8detect = ["storage", "network"] ∧
    (generateReportGroups c8detect).map Prod.fst ≠ firstSeenCategories c8detect := by
  refine ⟨by decide, by decide, by decide⟩

/-- C8 as amended: the aggregation is a pure function of the Finding list
producing (a) counts per severity; (b) a severity-sorted view that is a
permutation of the input, ordered by rank critical > high > medium > low
(stable: it is the concatenation of the rank buckets in detection order);
and (c) a grouping of the *sorted* view by category whose group order is
the first-seen category order of the sorted view and whose groups hold
exactly the sorted view's findings of that category, in sorted order. -/
theorem claimC8_amended :
    ∀ issues : List Issue,
      (∀ s : String, severityCount issues s = issues.countP fun i => i.severity == s) ∧
      (sortedIssues issues).Perm issues ∧
      List.Pairwise
        (fun a b => severityOrderKey a.severity ≤ severityOrderKey b.severity)
        (sortedIssues issues) ∧
      (generateReportGroups issues).map Prod.fst =
        dedupFirstSeen ((sortedIssues issues).map fun i => i.category) ∧
      (∀ c : String,
        lookupG (generateReportGroups issues) c =
          if (sortedIssues issues).any (fun i => i.category == c) then
            some ((sortedIssues issues).filter fun i => i.category == c)
          else none) := by
  intro issues
  refine ⟨?_, sortedIssues_perm issues, sortedIssues_pairwise issues, ?_, ?_⟩
  · intro s
    rw [severityCount, List.countP_eq_length_filter]
  · have h := foldl_insertIssue_keys (sortedIssues issues) []
    simpa [generateReportGroups, groupByCategory, dedupFirstSeen] using h
  · intro c
    have h := foldl_insertIssue_lookupG (sortedIssues issues) [] c
    simpa [generateReportGroups, groupByCategory, lookupG] using h



/-- Witness for C8: on `c8example` the sorted view is a permutation of the
input presented in order critical, high, medium, low, and the counts are
the countP values. -/
theorem claimC8_witness :
    (sortedIssues c8example).Perm c8example ∧
    (sortedIssues c8example).map (fun i => i.severity) =
      ["critical", "high", "medium", "low"] ∧
    severityCount c8example "critical" = c8example.countP (fun i => i.severity == "critical") :=
  ⟨(claimC8_amended c8example).2.1, by decide, (claimC8_amended c8example).1 "critical"⟩

end EsxiSpec
